import Mathlib

/-!
Verification of the resume-analyzer application (`app.py`).

The Python source is shallowly embedded below: pure helpers become Lean
functions; the Streamlit/Supabase side effects become explicit state
passing over a `St` record holding the object-store contents, the
`filehashes` table and the list of rendered UI messages.  External
collaborator calls (Supabase storage/table, Gemini) are modelled by their
documented semantics, with an explicit failure parameter where a claim
concerns a failing remote call.
-/

set_option autoImplicit false

namespace ResumeAnalyzer

/-! ## Hasher: `hash_file` (SHA-256, `hashlib.sha256(...).hexdigest()`) -/

/-- Truncation to a 32-bit word, `n mod 2^32`. -/
def w32 (n : Nat) : Nat := n % 4294967296

/-- Right rotation of a 32-bit word by `n` bits. -/
def rotr32 (x n : Nat) : Nat := w32 ((x >>> n) ||| (x <<< (32 - n)))

/-- SHA-256 big sigma 0. -/
def bsig0 (x : Nat) : Nat := w32 (rotr32 x 2 ^^^ rotr32 x 13 ^^^ rotr32 x 22)

/-- SHA-256 big sigma 1. -/
def bsig1 (x : Nat) : Nat := w32 (rotr32 x 6 ^^^ rotr32 x 11 ^^^ rotr32 x 25)

/-- SHA-256 small sigma 0. -/
def ssig0 (x : Nat) : Nat := w32 (rotr32 x 7 ^^^ rotr32 x 18 ^^^ (x >>> 3))

/-- SHA-256 small sigma 1. -/
def ssig1 (x : Nat) : Nat := w32 (rotr32 x 17 ^^^ rotr32 x 19 ^^^ (x >>> 10))

/-- SHA-256 choice function. -/
def chf (x y z : Nat) : Nat := w32 ((x &&& y) ^^^ ((w32 x ^^^ 4294967295) &&& z))

/-- SHA-256 majority function. -/
def maj (x y z : Nat) : Nat := w32 ((x &&& y) ^^^ (x &&& z) ^^^ (y &&& z))

/-- The 64 SHA-256 round constants (FIPS 180-4, written in decimal). -/
def shaK : List Nat :=
  [1116352408, 1899447441, 3049323471, 3921009573,
   961987163, 1508970993, 2453635748, 2870763221,
   3624381080, 310598401, 607225278, 1426881987,
   1925078388, 2162078206, 2614888103, 3248222580,
   3835390401, 4022224774, 264347078, 604807628,
   770255983, 1249150122, 1555081692, 1996064986,
   2554220882, 2821834349, 2952996808, 3210313671,
   3336571891, 3584528711, 113926993, 338241895,
   666307205, 773529912, 1294757372, 1396182291,
   1695183700, 1986661051, 2177026350, 2456956037,
   2730485921, 2820302411, 3259730800, 3345764771,
   3516065817, 3600352804, 4094571909, 275423344,
   430227734, 506948616, 659060556, 883997877,
   958139571, 1322822218, 1537002063, 1747873779,
   1955562222, 2024104815, 2227730452, 2361852424,
   2428436474, 2756734187, 3204031479, 3329325298]

/-- Big-endian byte encoding of `n` on `k` bytes. -/
def beBytes : Nat → Nat → List Nat
  | 0, _ => []
  | k + 1, n => beBytes k (n / 256) ++ [n % 256]

/-- SHA-256 message padding: append `0x80`, zeros, and the 64-bit big-endian
bit length, so the total length is a multiple of 64 bytes. -/
def padMsg (msg : List Nat) : List Nat :=
  let zeros := (64 - ((msg.length + 9) % 64)) % 64
  msg ++ [128] ++ List.replicate zeros 0 ++ beBytes 8 (msg.length * 8)

/-- Pack a byte list into big-endian 32-bit words. -/
def toWords : List Nat → List Nat
  | b0 :: b1 :: b2 :: b3 :: rest =>
      ((((b0 % 256) * 256 + b1 % 256) * 256 + b2 % 256) * 256 + b3 % 256) :: toWords rest
  | _ => []

/-- Split a word list into 16-word blocks. -/
def chunk16 : List Nat → List (List Nat)
  | w0 :: w1 :: w2 :: w3 :: w4 :: w5 :: w6 :: w7 ::
    w8 :: w9 :: w10 :: w11 :: w12 :: w13 :: w14 :: w15 :: rest =>
      [w0, w1, w2, w3, w4, w5, w6, w7, w8, w9, w10, w11, w12, w13, w14, w15] :: chunk16 rest
  | _ => []

/-- Extend a 16-word block to the 64-word message schedule (`n` words added). -/
def extendSched : Nat → List Nat → List Nat
  | 0, ws => ws
  | n + 1, ws =>
      let i := ws.length
      let nw := w32 (ssig1 (ws.getD (i - 2) 0) + ws.getD (i - 7) 0 +
                     ssig0 (ws.getD (i - 15) 0) + ws.getD (i - 16) 0)
      extendSched n (ws ++ [nw])

/-- The eight 32-bit working variables of the SHA-256 compression function. -/
structure H8 where
  a : Nat
  b : Nat
  c : Nat
  d : Nat
  e : Nat
  f : Nat
  g : Nat
  h : Nat

/-- The SHA-256 initial hash value (FIPS 180-4, written in decimal). -/
def h8Init : H8 :=
  H8.mk 1779033703 3144134277 1013904242 2773480762
        1359893119 2600822924 528734635 1541459225

/-- One SHA-256 round, on a `(k, w)` constant/schedule pair. -/
def shaRound (s : H8) (kw : Nat × Nat) : H8 :=
  let t1 := w32 (s.h + bsig1 s.e + chf s.e s.f s.g + kw.1 + kw.2)
  let t2 := w32 (bsig0 s.a + maj s.a s.b s.c)
  H8.mk (w32 (t1 + t2)) s.a s.b s.c (w32 (s.d + t1)) s.e s.f s.g

/-- SHA-256 compression of one 16-word block into the running hash. -/
def compress (st : H8) (block : List Nat) : H8 :=
  let ws := extendSched 48 block
  let fin := (List.zip shaK ws).foldl shaRound st
  H8.mk (w32 (st.a + fin.a)) (w32 (st.b + fin.b)) (w32 (st.c + fin.c)) (w32 (st.d + fin.d))
        (w32 (st.e + fin.e)) (w32 (st.f + fin.f)) (w32 (st.g + fin.g)) (w32 (st.h + fin.h))

/-- SHA-256 of a byte list, as the eight 32-bit words of the digest. -/
def sha256words (msg : List Nat) : List Nat :=
  let fin := (chunk16 (toWords (padMsg msg))).foldl compress h8Init
  [fin.a, fin.b, fin.c, fin.d, fin.e, fin.f, fin.g, fin.h]

/-- Lower-case hex digit for `n < 16`. -/
def hexDigit (n : Nat) : Char :=
  Char.ofNat (if n < 10 then 48 + n else 87 + n)

/-- Eight-hex-digit big-endian rendering of a 32-bit word. -/
def toHex8 (n : Nat) : String :=
  String.mk ((List.range 8).map (fun i => hexDigit ((n >>> ((7 - i) * 4)) % 16)))

/-- Python `hash_file(file_bytes)`: `hashlib.sha256(file_bytes).hexdigest()`.
Bytes are modelled as `List Nat` (each entry below 256 in actual use). -/
def hash_file (file_bytes : List Nat) : String :=
  String.join ((sha256words file_bytes).map toHex8)

/-! ## Application state

`St` carries the pieces of external state the app manipulates: the blobs in
the `resumes` storage bucket, the rows of the `filehashes` table, and the
messages rendered to the user (`st.success` / `st.warning` / `st.error`). -/

/-- A rendered Streamlit message. -/
inductive Msg where
  | success : String → Msg
  | warning : String → Msg
  | error : String → Msg
deriving DecidableEq, Repr

/-- A row of the `filehashes` table: `{file_name, file_hash, email}`. -/
structure HashRow where
  file_name : String
  file_hash : String
  email : String
deriving DecidableEq, Repr

/-- A blob in the `resumes` storage bucket: key and byte content. -/
structure Blob where
  path : String
  content : List Nat
deriving DecidableEq, Repr

/-- The application-visible state. -/
structure St where
  storage : List Blob
  filehashes : List HashRow
  msgs : List Msg
deriving DecidableEq, Repr

/-- Python `file_hash_exists(file_hash)`:
`select("file_hash").eq("file_hash", file_hash)` on the `filehashes` table,
then `len(response.data) > 0`.  Note the filter is on the hash alone. -/
def file_hash_exists (table : List HashRow) (file_hash : String) : Bool :=
  (table.filter (fun r => r.file_hash == file_hash)).length > 0

/-- Storage-key test for the Supabase `list(p)` call: `k` lies under the
directory `p` (modelled as `p` being a prefix of the key). -/
def keyUnder (p k : String) : Bool :=
  p.data.isPrefixOf k.data

/-- Name of the key `k` relative to the directory `p`. -/
def nameAfter (p k : String) : String :=
  String.mk (k.data.drop p.data.length)

/-- Supabase `storage.from_("resumes").list(p)`, returning the names of the
stored blobs under directory `p`. -/
def listDir (storage : List Blob) (p : String) : List String :=
  storage.filterMap (fun b => if keyUnder p b.path then some (nameAfter p b.path) else none)

/-- Directory used by `list` calls for a user: `f"resumes/{email}/"`. -/
def listDirOf (email : String) : String :=
  "resumes/" ++ email ++ "/"

/-- Storage key used by upload, download and delete:
`f"resumes/{email}/{file_name}"`. -/
def bucketPathFor (email file_name : String) : String :=
  "resumes/" ++ email ++ "/" ++ file_name

/-- Python `file_exists_in_supabase(file_name, email)`.  The `listFails`
flag models the `list` collaborator call raising; the `except` branch
renders the error and returns `False`. -/
def file_exists_in_supabase (listFails : Bool) (file_name email : String) (st : St) :
    Bool × St :=
  if listFails then
    (false, St.mk st.storage st.filehashes
      (st.msgs ++ [Msg.error "Error checking file existence: list failed"]))
  else
    ((listDir st.storage (listDirOf email)).contains file_name, st)

/-- Python `get_uploaded_files(email)` on the success path. -/
def get_uploaded_files (email : String) (st : St) : List String :=
  listDir st.storage (listDirOf email)

/-- Python `delete_file_from_supabase(file_name, email)`: storage `remove`
of the key (the collaborator does not raise on a missing key), then a
table delete filtered on `file_name` and `email`, then `st.success`. -/
def delete_file_from_supabase (file_name email : String) (st : St) : St :=
  let file_path := bucketPathFor email file_name
  let storage := st.storage.filter (fun b => b.path ≠ file_path)
  let table := st.filehashes.filter
    (fun r => ¬ (r.file_name = file_name ∧ r.email = email))
  St.mk storage table (st.msgs ++ [Msg.success (file_name ++ " deleted successfully!")])

/-- Python `store_file_hash_in_database(file_name, file_hash, email)` on the
success path of the `insert`: appends the row and renders `st.success`. -/
def store_file_hash_in_database (file_name file_hash email : String) (st : St) : St :=
  St.mk st.storage
    (st.filehashes ++ [HashRow.mk file_name file_hash email])
    (st.msgs ++ [Msg.success ("Hash for " ++ file_name ++
      " stored successfully in the database!")])

/-- Python `upload_file_to_supabase(file, file_name, email)`: hash the
bytes, warn and skip the storage upload when `file_exists_in_supabase`,
otherwise upload to `f"resumes/{email}/{file_name}"`; in both branches then
call `store_file_hash_in_database`.  The body contains no size check. -/
def upload_file_to_supabase (listFails : Bool) (file_content : List Nat)
    (file_name email : String) (st : St) : St :=
  let file_hash := hash_file file_content
  let checked := file_exists_in_supabase listFails file_name email st
  let st1 :=
    if checked.1 then
      St.mk checked.2.storage checked.2.filehashes
        (checked.2.msgs ++ [Msg.warning (file_name ++
          " already exists in Supabase. Skipping upload.")])
    else
      St.mk (checked.2.storage ++ [Blob.mk (bucketPathFor email file_name) file_content])
        checked.2.filehashes
        (checked.2.msgs ++ [Msg.success (file_name ++ " uploaded successfully!")])
  store_file_hash_in_database file_name file_hash email st1

/-- `MAX_FILE_SIZE = 10 * 1024 * 1024`.  Declared in the source and never
referenced by any other line of it. -/
def MAX_FILE_SIZE : Nat := 10 * 1024 * 1024

/-! ## Text Extractor: `extract_text_from_pdf` -/

/-- Outcome of a Python call: a normal return, or an exception propagating
out of the call. -/
inductive PyResult (α : Type) where
  | ret : α → PyResult α
  | exn : String → PyResult α
deriving DecidableEq, Repr

/-- Whether a `PyResult` is a normal return. -/
def PyResult.isRet {α : Type} : PyResult α → Bool
  | .ret _ => true
  | .exn _ => false

/-- Python truthiness of `page.extract_text()` (`Optional[str]`): `None`
and the empty string are falsy. -/
def truthyText : Option String → Bool
  | none => false
  | some s => s ≠ ""

/-- Python `extract_text_from_pdf` on a successfully opened PDF, with each
page's `extract_text()` result given as an `Option String`:
`"\n".join([page.extract_text() for page in pdf.pages if page.extract_text()])`. -/
def extract_text_from_pdf (pages : List (Option String)) : String :=
  String.intercalate "\n"
    ((pages.filter truthyText).filterMap (fun o => o))

/-- Python `extract_text_from_pdf` as actually called on a byte stream: the
argument is the outcome of `pdfplumber.open` and page iteration (it raises
on malformed or password-protected input).  The function body has no
`try`/`except`, so an exception propagates unhandled. -/
def extract_text_from_pdf_run (parsed : PyResult (List (Option String))) : PyResult String :=
  match parsed with
  | .ret pages => .ret (extract_text_from_pdf pages)
  | .exn e => .exn e

/-- Spec-side page filter, from the spec's words: keep the extracted text
of every page that yields extractable text, in page order. -/
def specPageTexts : List (Option String) → List String
  | [] => []
  | none :: ps => specPageTexts ps
  | some s :: ps => if s = "" then specPageTexts ps else s :: specPageTexts ps

/-- Spec-side joining, from the spec's words: the kept page texts
concatenated in page order, one per line. -/
def specJoinPages : List String → String
  | [] => ""
  | [s] => s
  | s :: t :: rest => s ++ "\n" ++ specJoinPages (t :: rest)

/-! ## Analysis Requester: `analyze_resume` and the Analyze-Resume UI guard -/

/-- The prompt built by `analyze_resume` (both inputs embedded verbatim). -/
def analysisPrompt (file_text job_description : String) : String :=
  "Analyze the following resume in comparison to the job description provided." ++
  " Provide feedback on skill matching, strengths, and improvements. Resume: " ++
  file_text ++ " Job Description: " ++ job_description

/-- Python `analyze_resume(file_text, job_description)`: builds the prompt
and calls `model.generate_content` unconditionally; a falsy response
becomes the string `"Error generating analysis."`.  The collaborator is a
function from prompt to `Option` response (`none` models a falsy
response); the first component records that it was invoked. -/
def analyze_resume (gemini : String → Option String) (file_text job_description : String) :
    Bool × String :=
  match gemini (analysisPrompt file_text job_description) with
  | some t => (true, t)
  | none => (true, "Error generating analysis.")

/-- The module-level analyze section:
`if resume_text and job_description and st.button("Analyze Resume"): ...`.
Returns whether the Gemini collaborator was invoked and the messages
rendered by the branch (the feedback via `st.write`, and nothing at all
when the guard is falsy). -/
def analyze_section (gemini : String → Option String)
    (resume_text job_description : String) (buttonPressed : Bool) : Bool × List Msg :=
  if resume_text ≠ "" ∧ job_description ≠ "" ∧ buttonPressed = true then
    let r := analyze_resume gemini resume_text job_description
    (r.1, [Msg.success r.2])
  else
    (false, [])

/-- Whether a rendered message is an error message. -/
def isErrorMsg : Msg → Bool
  | .error _ => true
  | _ => false

/-! ## Ownership of storage keys (for the namespacing invariant) -/

/-- The key `k` lies in the storage namespace of `owner`: it extends the
directory `f"resumes/{owner}/"`. -/
def ownedBy (owner k : String) : Prop :=
  ∃ r : List Char, k.data = (listDirOf owner).data ++ r

/-! ## Fixtures -/

/-- A table fixture: one row inserted by `alice@x.com` with hash `"h0"`. -/
def c1db : List HashRow := [HashRow.mk "r.pdf" "h0" "alice@x.com"]

/-- Tail of the inductive characterisation of `"\n".join`. -/
def sepJoin : List String → String
  | [] => ""
  | a :: t => "\n" ++ a ++ sepJoin t

/-- A Gemini collaborator fixture that would answer any prompt. -/
def c3gemini : String → Option String := fun _ => some "Looks like a good fit."

/-- A storage fixture: Alice already has `r.pdf` stored. -/
def c4st : St :=
  St.mk [Blob.mk "resumes/alice@x.com/r.pdf" [1, 2, 3]] [] []

/-! ## Theorems -/

/-- Each digest word renders as exactly eight hex characters. -/
lemma toHex8_length (n : Nat) : (toHex8 n).length = 8 := by
  simp [toHex8, String.length]

/-- The digest returned by `hash_file` always has exactly 64 characters
(the fixed-length clause of the Hasher contract). -/
theorem hash_file_length (bs : List Nat) : (hash_file bs).length = 64 := by
  simp [hash_file, sha256words, String.join, String.length_append, toHex8_length]

set_option maxRecDepth 100000 in
/-- Sanity: the embedding agrees with the published SHA-256 test vector for
the message `"abc"`. -/
theorem hash_file_abc :
    hash_file [97, 98, 99]
      = "ba7816bf8f01cfea414140de5dae2223b00361a396177a9cb410ff61f20015ad" := by
  decide

/-- Claim C1, counterexample: with only Alice's record for hash `"h0"` in
the table, the check still returns `true` for Bob, though no
`(bob, "h0")` record was ever inserted — the check is not scoped to the
owner. -/
theorem c1_counterexample :
    ¬ (file_hash_exists c1db "h0" = true ↔
       ∃ r ∈ c1db, r.email = "bob@y.com" ∧ r.file_hash = "h0") := by
  decide

/-- Claim C1 (amended): the duplicate check returns true iff a record with
that fingerprint was inserted and not deleted by ANY owner — it is global,
not scoped to the owner identity. -/
theorem c1_duplicate_check_global (table : List HashRow) (fh : String) :
    file_hash_exists table fh = true ↔ ∃ r ∈ table, r.file_hash = fh := by
  unfold file_hash_exists
  rw [decide_eq_true_iff]
  simp only [gt_iff_lt, List.length_pos]
  constructor
  · intro h
    rcases List.exists_mem_of_ne_nil _ h with ⟨r, hr⟩
    exact ⟨r, (List.mem_filter.mp hr).1, by
      have := (List.mem_filter.mp hr).2
      simpa using this⟩
  · rintro ⟨r, hr, hfh⟩
    intro hnil
    have : r ∈ List.filter (fun r => r.file_hash == fh) table :=
      List.mem_filter.mpr ⟨hr, by simpa using hfh⟩
    simp [hnil] at this

lemma intercalate_go_eq (as : List String) : ∀ acc : String,
    String.intercalate.go acc "\n" as = acc ++ sepJoin as := by
  induction as with
  | nil => intro acc; simp [String.intercalate.go, sepJoin]
  | cons a t ih =>
      intro acc
      rw [String.intercalate.go, ih, sepJoin]
      simp [String.append_assoc]

lemma cons_sepJoin_eq_specJoin (as : List String) : ∀ a : String,
    a ++ sepJoin as = specJoinPages (a :: as) := by
  induction as with
  | nil => intro a; simp [sepJoin, specJoinPages]
  | cons b t ih =>
      intro a
      rw [sepJoin, specJoinPages, ← ih b]
      simp [String.append_assoc]

lemma intercalate_eq_specJoin (l : List String) :
    String.intercalate "\n" l = specJoinPages l := by
  cases l with
  | nil => rfl
  | cons a as =>
      rw [String.intercalate, intercalate_go_eq, cons_sepJoin_eq_specJoin]

lemma kept_pages_eq_specPageTexts (pages : List (Option String)) :
    (pages.filter truthyText).filterMap (fun o => o) = specPageTexts pages := by
  induction pages with
  | nil => rfl
  | cons p ps ih =>
      cases p with
      | none => simpa [truthyText, specPageTexts] using ih
      | some s =>
          by_cases hs : s = ""
          · simp [hs, truthyText, specPageTexts, ih]
          · simp [hs, truthyText, specPageTexts, List.filter_cons, ih]

/-- Claim C5: extraction returns the page texts joined in page order with
pages yielding no extractable text skipped (stated against the spec-side
`specJoinPages`/`specPageTexts`), and on pages `["Hello", "", "World"]`
it returns `"Hello\nWorld"`. -/
theorem c5_extract_joins_nonempty_pages :
    (∀ pages : List (Option String),
        extract_text_from_pdf pages = specJoinPages (specPageTexts pages)) ∧
    extract_text_from_pdf [some "Hello", some "", some "World"] = "Hello\nWorld" := by
  constructor
  · intro pages
    rw [extract_text_from_pdf, kept_pages_eq_specPageTexts, intercalate_eq_specJoin]
  · rfl

/-- Claim C2 (code defect): `upload_file_to_supabase` never consults
`MAX_FILE_SIZE`; an upload strictly larger than the 10 MiB ceiling is still
written to the object store and recorded in the metadata table. -/
theorem c2_oversize_upload_still_writes (file_content : List Nat)
    (file_name email : String) (st : St)
    (_hbig : file_content.length > MAX_FILE_SIZE)
    (hnew : (listDir st.storage (listDirOf email)).contains file_name = false) :
    (upload_file_to_supabase false file_content file_name email st).storage
      = st.storage ++ [Blob.mk (bucketPathFor email file_name) file_content] ∧
    (upload_file_to_supabase false file_content file_name email st).filehashes
      = st.filehashes ++ [HashRow.mk file_name (hash_file file_content) email] := by
  have hnew' : file_name ∉ listDir st.storage (listDirOf email) := by simpa using hnew
  constructor <;>
    simp [upload_file_to_supabase, file_exists_in_supabase,
      store_file_hash_in_database, hnew']

/-- Claim C2, witness: an 11 MiB zero payload is uploaded and recorded. -/
theorem c2_oversize_upload_still_writes_witness :
    (upload_file_to_supabase false (List.replicate 11534336 0) "big.pdf" "alice@x.com"
        (St.mk [] [] [])).storage
      = [Blob.mk (bucketPathFor "alice@x.com" "big.pdf") (List.replicate 11534336 0)] ∧
    (upload_file_to_supabase false (List.replicate 11534336 0) "big.pdf" "alice@x.com"
        (St.mk [] [] [])).filehashes
      = [HashRow.mk "big.pdf" (hash_file (List.replicate 11534336 0)) "alice@x.com"] :=
  c2_oversize_upload_still_writes (List.replicate 11534336 0) "big.pdf" "alice@x.com"
    (St.mk [] [] [])
    (by simp only [List.length_replicate, MAX_FILE_SIZE]; decide)
    rfl

/-- Claim C3, counterexample: with a non-empty resume, an empty job
description and the button pressed, the analyze section neither invokes
Gemini nor renders any validation error message — the claim's
"returns a validation error" half is false. -/
theorem c3_counterexample :
    ¬ ((analyze_section c3gemini "Some resume text" "" true).1 = false ∧
       (analyze_section c3gemini "Some resume text" "" true).2.any isErrorMsg = true) := by
  simp [analyze_section, isErrorMsg]

/-- Claim C3 (amended): when the extracted resume text or the
job-description text is empty, the external completion collaborator is not
invoked, but no validation error is rendered either — the analysis branch
simply does not run and produces no message. -/
theorem c3_empty_inputs_skip_analysis (gemini : String → Option String)
    (resume_text job_description : String) (pressed : Bool)
    (h : resume_text = "" ∨ job_description = "") :
    analyze_section gemini resume_text job_description pressed = (false, []) := by
  rcases h with h | h <;> simp [analyze_section, h]

/-- Claim C3, witness for the amended theorem at an empty job description. -/
theorem c3_empty_inputs_skip_analysis_witness :
    analyze_section c3gemini "Some resume text" "" true = (false, []) :=
  c3_empty_inputs_skip_analysis c3gemini "Some resume text" "" true (Or.inr rfl)

/-- Claim C4, counterexample: re-uploading `r.pdf` for Alice writes no
second blob, but it is not a no-op — the `filehashes` table gains a row,
because `store_file_hash_in_database` is called on both branches. -/
theorem c4_counterexample :
    ¬ ((upload_file_to_supabase false [1, 2, 3] "r.pdf" "alice@x.com" c4st).storage
         = c4st.storage ∧
       (upload_file_to_supabase false [1, 2, 3] "r.pdf" "alice@x.com" c4st).filehashes
         = c4st.filehashes) := by
  intro h
  have h2 := h.2
  simp only [upload_file_to_supabase, file_exists_in_supabase,
    store_file_hash_in_database, c4st] at h2
  simp [apply_ite St.filehashes] at h2

/-- Claim C4 (amended): a second upload of the same filename for the same
owner stores no second blob and warns, but still inserts a
`(file_name, hash, email)` row into the metadata table. -/
theorem c4_duplicate_upload_still_inserts_hash (file_content : List Nat)
    (file_name email : String) (st : St)
    (hex : (listDir st.storage (listDirOf email)).contains file_name = true) :
    (upload_file_to_supabase false file_content file_name email st).storage
      = st.storage ∧
    (upload_file_to_supabase false file_content file_name email st).msgs
      = st.msgs ++
        [Msg.warning (file_name ++ " already exists in Supabase. Skipping upload."),
         Msg.success ("Hash for " ++ file_name ++
           " stored successfully in the database!")] ∧
    (upload_file_to_supabase false file_content file_name email st).filehashes
      = st.filehashes ++ [HashRow.mk file_name (hash_file file_content) email] := by
  have hex' : file_name ∈ listDir st.storage (listDirOf email) := by simpa using hex
  refine ⟨?_, ?_, ?_⟩ <;>
    simp [upload_file_to_supabase, file_exists_in_supabase,
      store_file_hash_in_database, hex']

/-- Claim C4, witness: the amended theorem at Alice's stored `r.pdf`. -/
theorem c4_duplicate_upload_still_inserts_hash_witness :
    (upload_file_to_supabase false [1, 2, 3] "r.pdf" "alice@x.com" c4st).storage
      = c4st.storage ∧
    (upload_file_to_supabase false [1, 2, 3] "r.pdf" "alice@x.com" c4st).msgs
      = c4st.msgs ++
        [Msg.warning ("r.pdf" ++ " already exists in Supabase. Skipping upload."),
         Msg.success ("Hash for " ++ "r.pdf" ++
           " stored successfully in the database!")] ∧
    (upload_file_to_supabase false [1, 2, 3] "r.pdf" "alice@x.com" c4st).filehashes
      = c4st.filehashes ++ [HashRow.mk "r.pdf" (hash_file [1, 2, 3]) "alice@x.com"] :=
  c4_duplicate_upload_still_inserts_hash [1, 2, 3] "r.pdf" "alice@x.com" c4st (by decide)

/-- Claim C6, counterexample: on a byte stream that `pdfplumber` fails to
parse, the extraction does not return at all — the exception propagates,
refuting "returns an error value or empty text and never raises". -/
theorem c6_counterexample :
    ¬ ((extract_text_from_pdf_run
          (PyResult.exn "PDFSyntaxError: No /Root object")).isRet = true) := by
  simp [extract_text_from_pdf_run, PyResult.isRet]

/-- Claim C6 (amended): `extract_text_from_pdf` has no exception handler: a
parse failure propagates as an unhandled fault, while a successfully
parsed PDF always returns text — in particular the empty string when no
page yields extractable text (image-only or blank PDFs). -/
theorem c6_extract_no_handler :
    (∀ e, extract_text_from_pdf_run (PyResult.exn e) = PyResult.exn e) ∧
    (∀ pages, (∀ p ∈ pages, truthyText p = false) →
        extract_text_from_pdf_run (PyResult.ret pages) = PyResult.ret "") := by
  refine ⟨fun _ => rfl, fun pages h => ?_⟩
  have hfil : pages.filter truthyText = [] :=
    List.filter_eq_nil_iff.mpr (by intro p hp; simp [h p hp])
  simp [extract_text_from_pdf_run, extract_text_from_pdf, hfil, String.intercalate]

/-- Claim C6, witness: an image-only two-page PDF returns the empty string. -/
theorem c6_extract_no_handler_witness :
    extract_text_from_pdf_run (PyResult.ret [none, some ""]) = PyResult.ret "" :=
  c6_extract_no_handler.2 [none, some ""] (by decide)

/-- Claim C8: deleting a file that was never uploaded (or already deleted)
leaves the store and the table unchanged and reports success — the
operation is idempotent and renders no error. -/
theorem c8_delete_idempotent (file_name email : String) (st : St)
    (habs : ∀ b ∈ st.storage, b.path ≠ bucketPathFor email file_name)
    (hrow : ∀ r ∈ st.filehashes, ¬ (r.file_name = file_name ∧ r.email = email)) :
    (delete_file_from_supabase file_name email st).storage = st.storage ∧
    (delete_file_from_supabase file_name email st).filehashes = st.filehashes ∧
    (delete_file_from_supabase file_name email st).msgs
      = st.msgs ++ [Msg.success (file_name ++ " deleted successfully!")] := by
  refine ⟨?_, ?_, rfl⟩
  · exact List.filter_eq_self.mpr (fun b hb => decide_eq_true (habs b hb))
  · exact List.filter_eq_self.mpr (fun r hr => decide_eq_true (hrow r hr))

/-- Claim C8, witness: deleting `ghost.pdf` from an empty state succeeds. -/
theorem c8_delete_idempotent_witness :
    (delete_file_from_supabase "ghost.pdf" "alice@x.com" (St.mk [] [] [])).storage = [] ∧
    (delete_file_from_supabase "ghost.pdf" "alice@x.com" (St.mk [] [] [])).filehashes = [] ∧
    (delete_file_from_supabase "ghost.pdf" "alice@x.com" (St.mk [] [] [])).msgs
      = [] ++ [Msg.success ("ghost.pdf" ++ " deleted successfully!")] :=
  c8_delete_idempotent "ghost.pdf" "alice@x.com" (St.mk [] [] [])
    (by intro b hb; simp at hb) (by intro r hr; simp at hr)

lemma append_sep_inj (s : Char) (a : List Char) : ∀ b x y : List Char,
    s ∉ a → s ∉ b → a ++ s :: x = b ++ s :: y → a = b := by
  induction a with
  | nil =>
      intro b x y _ hb h
      cases b with
      | nil => rfl
      | cons c bs =>
          injection h with h1 _
          cases h1
          simp at hb
  | cons c as ih =>
      intro b x y ha hb h
      cases b with
      | nil =>
          injection h with h1 _
          cases h1
          simp at ha
      | cons d bs =>
          injection h with h1 h2
          have := ih bs x y (by intro hx; exact ha (List.mem_cons_of_mem c hx))
            (by intro hx; exact hb (List.mem_cons_of_mem d hx)) h2
          rw [h1, this]

lemma slash_data : "/".data = ['/'] := rfl

/-- Claim C9: upload, download and delete all address the key
`f"resumes/{email}/{file_name}"` and listing addresses the directory
`f"resumes/{email}/"`, so (i) every key an operation touches lies in the
acting owner's namespace, (ii) every key the listing reports lies in that
namespace, and (iii) for distinct owner identities free of `/`, no
operation's key lies in the other owner's namespace, whatever filename the
caller supplies. -/
theorem c9_owner_namespacing :
    (∀ email file_name : String, ownedBy email (bucketPathFor email file_name)) ∧
    (∀ email k : String, keyUnder (listDirOf email) k = true → ownedBy email k) ∧
    (∀ o o' n : String, '/' ∉ o.data → '/' ∉ o'.data → o ≠ o' →
        ¬ ownedBy o' (bucketPathFor o n)) := by
  refine ⟨?_, ?_, ?_⟩
  · intro email file_name
    exact ⟨file_name.data, by simp [bucketPathFor, listDirOf]⟩
  · intro email k h
    rcases List.isPrefixOf_iff_prefix.mp h with ⟨r, hr⟩
    exact ⟨r, hr.symm⟩
  · rintro o o' n ho ho' hne ⟨r, hr⟩
    simp only [bucketPathFor, listDirOf, String.data_append, List.append_assoc,
      slash_data, List.singleton_append, List.cons_append, List.nil_append] at hr
    have h1 : o.data ++ '/' :: n.data = o'.data ++ '/' :: r := by
      simpa only [List.cons.injEq, eq_self_iff_true, true_and] using hr
    exact hne (String.ext (append_sep_inj '/' o.data o'.data n.data r ho ho' h1))

/-- Claim C9, witness: Alice's upload key is in Alice's namespace and not
in Bob's. -/
theorem c9_owner_namespacing_witness :
    ownedBy "alice@x.com" (bucketPathFor "alice@x.com" "cv.pdf") ∧
    ¬ ownedBy "bob@y.com" (bucketPathFor "alice@x.com" "cv.pdf") :=
  ⟨c9_owner_namespacing.1 "alice@x.com" "cv.pdf",
   c9_owner_namespacing.2.2 "alice@x.com" "bob@y.com" "cv.pdf"
     (by decide) (by decide) (by decide)⟩

/-- Claim C10: when the storage listing call raises, the existence check
renders the error and returns `false`, and the subsequent upload proceeds:
the blob is written as if the file did not exist. -/
theorem c10_list_failure_means_absent (file_content : List Nat)
    (file_name email : String) (st : St) :
    (file_exists_in_supabase true file_name email st).1 = false ∧
    (file_exists_in_supabase true file_name email st).2.msgs
      = st.msgs ++ [Msg.error "Error checking file existence: list failed"] ∧
    (upload_file_to_supabase true file_content file_name email st).storage
      = st.storage ++ [Blob.mk (bucketPathFor email file_name) file_content] := by
  refine ⟨rfl, rfl, ?_⟩
  simp [upload_file_to_supabase, file_exists_in_supabase, store_file_hash_in_database]

end ResumeAnalyzer
